import Mathlib

/-!
Shallow embedding of the transcription core of the `cf_ai_privote` repository:
the `WhisperClient` class (`privote-desktop/src/whisper/whisper-client.js`),
the `transcribe-audio` and `download-model` IPC handlers of the Electron main
process, and the audio normalizer `convertToWav`
(`privote-desktop/src/renderer/js/audio.js`).

Modelling conventions:
- JavaScript strings are Lean `String`s; a JS string is truthy iff it is
  non-empty, which `jsOr`/`jsOrS` encode.
- File-system observations (`fs.existsSync`, file contents, `fs.statSync`)
  are snapshot fields of an environment record: `Option String` for a file
  that may be absent, `Except String Nat` for a `statSync` call that may
  throw with a message.
- `JSON.parse` is a platform builtin, so it enters the model as an abstract
  function `String → Option JsonData`; `none` models a parse exception.
- Thrown exceptions / rejected promises are `Except.error msg`; the
  `try/catch` in `transcribe` maps them to the failure result variant.
- Timestamps (`Date.now()`) are natural numbers in milliseconds.  The code
  reports `duration` in seconds as `parseFloat(((tClose - tStart)/1000).toFixed(2))`;
  to avoid floating point the model carries the underlying elapsed
  milliseconds `tClose - tStart` in the `durationMs` field.
-/

namespace Privote

/-- JS `a || b` for a possibly-undefined string `a` (`none` = `undefined`):
the empty string and `undefined` are falsy. -/
def jsOr (a : Option String) (b : String) : String :=
  match a with
  | some s => if s = "" then b else s
  | none => b

/-- JS `a || b` for two strings. -/
def jsOrS (a b : String) : String :=
  if a = "" then b else a

/-- `path.join a b` (separator detail is irrelevant to the claims). -/
def pathJoin (a b : String) : String := a ++ "/" ++ b

/-- A segment of the whisper JSON output (carried through unexamined). -/
structure Segment where
  t0 : Int
  t1 : Int
  text : String
deriving Repr, DecidableEq

/-- The fields of a parsed JSON sidecar object that
`_transcribeWithCLI` reads: `jsonData.transcription`, `jsonData.text`,
`jsonData.segments`; `none` = the field is absent (`undefined`). -/
structure JsonData where
  transcription : Option String
  text : Option String
  segments : Option (List Segment)
deriving Repr

/-- The result object of `WhisperClient.transcribe`:
`{success: true, transcript, language, duration, segments}` or
`{success: false, error}`.  `durationMs` is the elapsed time in
milliseconds underlying the reported `duration` (see module comment). -/
inductive TranscriptionResult where
  | ok (transcript : String) (language : String) (durationMs : Nat)
      (segments : List Segment)
  | failed (error : String)
deriving Repr

/-- The `success` field of the result object. -/
def TranscriptionResult.success : TranscriptionResult → Bool
  | .ok _ _ _ _ => true
  | .failed _ => false

/-- The `transcript` field of the result object (absent on failure). -/
def TranscriptionResult.transcriptField : TranscriptionResult → Option String
  | .ok t _ _ _ => some t
  | .failed _ => none

/-- The `duration` field (as elapsed milliseconds; absent on failure). -/
def TranscriptionResult.durationMsField : TranscriptionResult → Option Nat
  | .ok _ _ d _ => some d
  | .failed _ => none

/-- The `error` field of the result object (absent on success). -/
def TranscriptionResult.errorField : TranscriptionResult → Option String
  | .ok _ _ _ _ => none
  | .failed e => some e

/-- Sidecar files next to the audio file: content of
`audioFilePath` with its extension replaced by `.json` / `.txt`
(`none` = `fs.existsSync` is false). -/
structure SidecarFS where
  jsonSidecar : Option String
  txtSidecar : Option String

/-- One observed run of the whisper CLI child process together with the
client configuration: everything `transcribe`/`_transcribeWithCLI` can
observe.  `spawnFail = some m` models the process `error` event (spawn
failure) with message `m`; otherwise the `close` event fires at time
`tClose` with `exitCode`, the captured `stdout`/`stderr`, and the sidecar
file system `sidecars`.  `statResult` is the outcome of
`fs.statSync(audioFilePath)` (size in bytes, or a thrown message).
`tParseDone` is the instant at which output parsing completes; the code
never reads it, it exists to state wall-clock claims about the reported
duration. -/
structure WhisperEnv where
  audioExists : Bool
  modelExists : Bool
  whisperExists : Bool
  audioPath : String
  modelPath : String
  whisperPath : String
  language : String
  spawnFail : Option String
  exitCode : Int
  stdout : String
  stderr : String
  sidecars : SidecarFS
  statResult : Except String Nat
  tStart : Nat
  tClose : Nat
  tParseDone : Nat
  parse : String → Option JsonData

/-- Error message of the `audio file not found` throw in `transcribe`. -/
def audioNotFoundMsg (p : String) : String :=
  "Audio file not found: " ++ p

/-- Error message of the `model not found` throw in `transcribe`. -/
def modelNotFoundMsg (p : String) : String :=
  "Whisper model not found at " ++ p ++ ". Please download a model first.\n" ++
    "Download from: https://huggingface.co/ggerganov/whisper.cpp/tree/main"

/-- Rejection message for a non-zero exit code in `_transcribeWithCLI`. -/
def exitCodeMsg (code : Int) (stderrS stdoutS : String) : String :=
  "Whisper process exited with code " ++ toString code ++
    "\nStderr: " ++ stderrS ++ "\nStdout: " ++ stdoutS

/-- Rejection message of the `error` event handler (spawn failure). -/
def spawnFailMsg (whisperPath m : String) : String :=
  "Failed to start Whisper process at " ++ whisperPath ++ ": " ++ m ++
    "\nMake sure whisper.cpp is built and the path is correct."

/-- Rejection message when no transcript was resolved (the
`EmptyTranscript` failure); `size` is the audio file size in bytes. -/
def emptyTranscriptMsg (size : Nat) : String :=
  "No transcript generated. Audio file may be invalid or incompatible.\n" ++
    "Size: " ++ toString size ++ " bytes"

/-- Rejection message of the catch-all inside the `close` handler. -/
def parseFailMsg (m : String) : String :=
  "Failed to parse whisper output: " ++ m

/-- The JSON step of the output fallback chain (lines 211-224): if the
`.json` sidecar exists and its content is non-empty, parse it; on success
take `jsonData.transcription || jsonData.text || ""` and
`jsonData.segments || []`; a parse exception falls through with nothing. -/
def jsonYield (parse : String → Option JsonData) (jsonSidecar : Option String) :
    String × List Segment :=
  match jsonSidecar with
  | some content =>
      if content.length > 0 then
        match parse content with
        | some jd => (jsOr jd.transcription (jsOr jd.text ""), jd.segments.getD [])
        | none => ("", [])
      else ("", [])
  | none => ("", [])

/-- The full transcript fallback chain of the `close` handler
(lines 211-236): JSON sidecar, then `.txt` sidecar (trimmed), then
captured stdout (trimmed) when stdout is non-empty. -/
def resolveTranscript (parse : String → Option JsonData) (stdoutS : String)
    (fs : SidecarFS) : String :=
  let t0 := (jsonYield parse fs.jsonSidecar).1
  let t1 :=
    if t0 = "" then
      match fs.txtSidecar with
      | some c => c.trim
      | none => t0
    else t0
  if t1 = "" ∧ stdoutS ≠ "" then stdoutS.trim else t1

/-- The segment list resolved by the `close` handler: only the JSON step
ever sets `segments`. -/
def resolveSegments (parse : String → Option JsonData)
    (fs : SidecarFS) : List Segment :=
  (jsonYield parse fs.jsonSidecar).2

/-- The `close` event handler of `_transcribeWithCLI` (lines 182-273):
computes the duration at handler entry, rejects on a non-zero exit code,
then (inside `try`) stats the audio file, resolves transcript and
segments through the fallback chain, and rejects with `EmptyTranscript`
when the resolved transcript is empty. -/
def closeHandler (parse : String → Option JsonData) (language : String)
    (tStart tClose : Nat) (code : Int) (stdoutS stderrS : String)
    (fs : SidecarFS) (statResult : Except String Nat) :
    Except String TranscriptionResult :=
  let durationMs := tClose - tStart
  if code ≠ 0 then
    .error (exitCodeMsg code stderrS stdoutS)
  else
    match statResult with
    | .error m => .error (parseFailMsg m)
    | .ok size =>
        let transcript := resolveTranscript parse stdoutS fs
        let segments := resolveSegments parse fs
        if transcript = "" then
          .error (emptyTranscriptMsg size)
        else
          .ok (.ok transcript language durationMs segments)

/-- `_transcribeWithCLI`: a spawn failure rejects via the `error` event;
otherwise the `close` handler decides the promise. -/
def transcribeWithCLI (env : WhisperEnv) : Except String TranscriptionResult :=
  match env.spawnFail with
  | some m => .error (spawnFailMsg env.whisperPath m)
  | none =>
      closeHandler env.parse env.language env.tStart env.tClose env.exitCode
        env.stdout env.stderr env.sidecars env.statResult

/-- The fixed placeholder transcript of `_generatePlaceholderTranscript`. -/
def placeholderTranscript : String :=
  "This is a placeholder transcript generated by Privote.\n\n" ++
  "To enable real transcription, you need to integrate Whisper.cpp:\n\n" ++
  "1. Download a Whisper model (e.g., ggml-base.en.bin)\n" ++
  "2. Place it in the 'models' directory\n" ++
  "3. Build whisper.cpp or use the WASM version\n" ++
  "4. Update the whisper-client.js implementation\n\n" ++
  "For now, you can test the UI and upload functionality with this placeholder text."

/-- `WhisperClient.transcribe` (lines 56-101): precondition checks, the
placeholder soft-fail when the executable is missing, the CLI run, and
the catch-all that maps every throw/rejection to `{success: false, error}`. -/
def transcribe (env : WhisperEnv) : TranscriptionResult :=
  if env.audioExists = false then
    .failed (audioNotFoundMsg env.audioPath)
  else if env.modelExists = false then
    .failed (modelNotFoundMsg env.modelPath)
  else if env.whisperExists = false then
    .ok placeholderTranscript env.language 0 []
  else
    match transcribeWithCLI env with
    | .ok r => r
    | .error m => .failed m

/-- Result object of the `transcribe-audio` IPC handler: it forwards
`transcript`, `duration`, `language` on success, and
`result.error || "Transcription failed"` on failure. -/
inductive IpcResult where
  | ok (transcript : String) (durationMs : Nat) (language : String)
  | failed (error : String)
deriving Repr

/-- The `transcribe-audio` IPC handler of the Electron main process
(main.js lines 159-186); `WhisperClient.transcribe` itself never throws,
so the handler reduces to reshaping its result. -/
def transcribeAudioHandler (env : WhisperEnv) : IpcResult :=
  match transcribe env with
  | .ok t l d _ => .ok t d l
  | .failed e => .failed (jsOrS e "Transcription failed")

/-- The `whisperPath` resolution in the `WhisperClient` constructor
(lines 34-37): `options.whisperPath || process.env.WHISPER_CPP_PATH ||
path.join(resourcesPath, "whisper-cli")`. -/
def resolveWhisperPath (optionsWhisperPath envOverride : Option String)
    (resourcesPath : String) : String :=
  jsOr optionsWhisperPath (jsOr envOverride (pathJoin resourcesPath "whisper-cli"))

/-- First candidate that is provided and exists on disk. -/
def firstExisting (existsOnDisk : String → Bool) :
    List (Option String) → Option String
  | [] => none
  | none :: rest => firstExisting existsOnDisk rest
  | some p :: rest =>
      if existsOnDisk p then some p else firstExisting existsOnDisk rest

/-- Modelled from the spec (§4.3 Engine Locator), for comparison with
`resolveWhisperPath`: "Resolves, in order, until one path exists on disk:
an explicit caller-supplied path, an environment-variable override, a
path relative to the packaged/installed resource bundle, then a
well-known system install location." -/
def locatorSpec (existsOnDisk : String → Bool)
    (explicitPath envOverride : Option String)
    (resourcesPath systemLocation : String) : Option String :=
  firstExisting existsOnDisk
    [explicitPath, envOverride, some (pathJoin resourcesPath "whisper-cli"),
     some systemLocation]

/-- The model-name → URL map of the `download-model` IPC handler
(main.js lines 581-592); its keys are the model catalog. -/
def modelUrls : List (String × String) :=
  [("ggml-base.en.bin",
    "https://huggingface.co/ggerganov/whisper.cpp/resolve/main/ggml-base.en.bin"),
   ("ggml-tiny.en.bin",
    "https://huggingface.co/ggerganov/whisper.cpp/resolve/main/ggml-tiny.en.bin"),
   ("ggml-small.en.bin",
    "https://huggingface.co/ggerganov/whisper.cpp/resolve/main/ggml-small.en.bin"),
   ("ggml-medium.en.bin",
    "https://huggingface.co/ggerganov/whisper.cpp/resolve/main/ggml-medium.en.bin"),
   ("ggml-large-v2.bin",
    "https://huggingface.co/ggerganov/whisper.cpp/resolve/main/ggml-large-v2.bin")]

/-- Outcome of one `fetch(url)` call: a body, a non-ok HTTP response
(`response.ok` false), or a rejected fetch promise. -/
inductive FetchOutcome where
  | ok (body : List Nat)
  | httpErr (status : Nat) (statusText : String)
  | netErr (msg : String)

/-- Result object of the `download-model` handler:
`{success: true, message}` or `{success: false, error}`. -/
inductive DlResult where
  | ok (message : String)
  | failed (error : String)
deriving Repr, DecidableEq

/-- The `success` field of a download result. -/
def DlResult.success : DlResult → Bool
  | .ok _ => true
  | .failed _ => false

/-- Observable outcome of one `download-model` call: the returned result
object, the models directory contents afterwards, and how many network
fetches / file writes the call performed. -/
structure DlOutcome where
  result : DlResult
  files : List String
  fetchCount : Nat
  writeCount : Nat
deriving Repr, DecidableEq

/-- The `download-model` IPC handler (main.js lines 565-618).  `files` is
the list of file names in the models directory (`mkdirSync` on a missing
directory is the empty list); `fetch` is the network.  An existing target
file short-circuits to success before the catalog is consulted; an
unknown model name fails; a non-ok HTTP response throws into the catch;
a fetch rejection is caught as well. -/
def downloadModel (fetch : String → FetchOutcome) (modelName : String)
    (files : List String) : DlOutcome :=
  if files.contains modelName then
    ⟨.ok "Model already exists", files, 0, 0⟩
  else
    match modelUrls.lookup modelName with
    | none => ⟨.failed ("Unknown model: " ++ modelName), files, 0, 0⟩
    | some url =>
        match fetch url with
        | .ok _body =>
            ⟨.ok ("Model " ++ modelName ++ " downloaded successfully"),
             modelName :: files, 1, 1⟩
        | .httpErr status statusText =>
            ⟨.failed ("HTTP " ++ toString status ++ ": " ++ statusText),
             files, 1, 0⟩
        | .netErr m => ⟨.failed m, files, 1, 0⟩

/-- An audio blob: payload bytes plus MIME type. -/
structure Blob where
  data : List Nat
  type : String
deriving Repr, DecidableEq

/-- A decoded `AudioBuffer`: sample rate and per-channel sample data
(samples as rationals in `[-1, 1]`; `numberOfChannels` is
`channels.length`). -/
structure AudioBuffer where
  sampleRate : Nat
  channels : List (List ℚ)

/-- `mergeChannels` (audio.js lines 52-63): average channels 0 and 1
sample-wise (channel 1 defaults to channel 0 for mono input). -/
def mergeChannels (buf : AudioBuffer) : List ℚ :=
  let left := buf.channels.getD 0 []
  let right := if buf.channels.length > 1 then buf.channels.getD 1 [] else left
  List.zipWith (fun l r => (l + r) / 2) left right

/-- Little-endian bytes of a 16-bit word. -/
def u16le (n : Nat) : List Nat := [n % 256, n / 256 % 256]

/-- Little-endian bytes of a 32-bit word. -/
def u32le (n : Nat) : List Nat :=
  [n % 256, n / 256 % 256, n / 65536 % 256, n / 16777216 % 256]

/-- Byte codes of an ASCII string (`writeString`, audio.js lines 105-109). -/
def asciiBytes (s : String) : List Nat := s.data.map Char.toNat

/-- JS number-to-integer truncation toward zero (as used by `setInt16`). -/
def truncToInt (q : ℚ) : Int :=
  if q < 0 then -(Int.floor (-q)) else Int.floor q

/-- One sample of `encodeWAV`'s data section: clamp to `[-1, 1]`, scale by
`0x8000` (negative) or `0x7fff` (non-negative), store as little-endian
two's-complement 16-bit (`setInt16`). -/
def sampleBytes (s : ℚ) : List Nat :=
  let c := max (-1 : ℚ) (min 1 s)
  let v := truncToInt (if c < 0 then c * 32768 else c * 32767)
  u16le (v % 65536).toNat

/-- `encodeWAV` (audio.js lines 71-97): the 44-byte RIFF/WAVE header
followed by the 16-bit PCM data section. -/
def encodeWAV (samples : List ℚ) (sampleRate : Nat) : List Nat :=
  asciiBytes "RIFF" ++ u32le ((36 + samples.length * 2) % 4294967296) ++
  asciiBytes "WAVE" ++ asciiBytes "fmt " ++ u32le 16 ++ u16le 1 ++ u16le 1 ++
  u32le (sampleRate % 4294967296) ++ u32le (sampleRate * 2 % 4294967296) ++
  u16le 2 ++ u16le 16 ++ asciiBytes "data" ++
  u32le (samples.length * 2 % 4294967296) ++
  (samples.map sampleBytes).flatten

/-- `convertToWav` (audio.js lines 13-45).  `decode` is the
`blob.arrayBuffer()` + `audioContext.decodeAudioData` pipeline, an
abstract platform operation; `none` models any throw/rejection inside the
`try`, which the catch turns into returning the original blob. -/
def convertToWav (decode : List Nat → Option AudioBuffer) (audioBlob : Blob) :
    Blob :=
  match decode audioBlob.data with
  | none => audioBlob
  | some buf =>
      let channelData :=
        if buf.channels.length > 1 then mergeChannels buf
        else buf.channels.getD 0 []
      ⟨encodeWAV channelData buf.sampleRate, "audio/wav"⟩

/-- The text-sidecar step of the fallback chain in isolation: the trimmed
`.txt` content, or the empty string when the file is absent. -/
def txtYield (fs : SidecarFS) : String :=
  match fs.txtSidecar with
  | some c => c.trim
  | none => ""

/-! Concrete observations used by witnesses and counterexamples. -/

/-- A parse function for a sidecar `\x7b"transcription": "hello team"\x7d`
(the spec's concrete scenario, §9). -/
def parseHelloTeam : String → Option JsonData :=
  fun _ => some ⟨some "hello team", none, some []⟩

/-- A parse function for a sidecar whose `transcription` field is the
whitespace-only string `" "`. -/
def parseBlankField : String → Option JsonData :=
  fun _ => some ⟨some " ", none, none⟩

/-- A parse function for a sidecar with only a `text` field
`"hello world"` and no segments. -/
def parseHelloWorld : String → Option JsonData :=
  fun _ => some ⟨none, some "hello world", some []⟩

/-- The spec's concrete scenario (§9): audio and model present, engine
present, engine exits 0 printing nothing to stdout, JSON sidecar with
`"transcription": "hello team"`; spawned at 1000 ms, close event at
3000 ms, output parsing complete at 3500 ms. -/
def envHello : WhisperEnv where
  audioExists := true
  modelExists := true
  whisperExists := true
  audioPath := "/rec/meeting.wav"
  modelPath := "/res/models/ggml-base.en.bin"
  whisperPath := "/res/whisper-cli"
  language := "en"
  spawnFail := none
  exitCode := 0
  stdout := ""
  stderr := ""
  sidecars := ⟨some "\x7b\"transcription\": \"hello team\"\x7d", none⟩
  statResult := .ok 160044
  tStart := 1000
  tClose := 3000
  tParseDone := 3500
  parse := parseHelloTeam

/-- A zero-exit run in which every transcript source is blank: the JSON
`transcription` field is `" "`, the text sidecar holds `"   "`, stdout is
`"  "`. -/
def envAllBlank : WhisperEnv :=
  { envHello with
    sidecars := ⟨some "\x7b\"transcription\": \" \"\x7d", some "   "⟩
    stdout := "  "
    statResult := .ok 4242
    parse := parseBlankField }

/-- Audio and model present, engine executable absent. -/
def envNoEngine : WhisperEnv :=
  { envHello with whisperExists := false }

/-- Audio and model present, engine executable absent, language `de`. -/
def envNoEngineDe : WhisperEnv :=
  { envHello with whisperExists := false, language := "de" }

/-- Audio present, model file absent. -/
def envNoModel : WhisperEnv :=
  { envHello with modelExists := false }

/-- Audio file absent. -/
def envNoAudio : WhisperEnv :=
  { envHello with audioExists := false, audioPath := "/rec/missing.wav" }

/-- Coexisting sidecars with different content: JSON yields
`"hello world"`, the text sidecar holds `"different text"`. -/
def fsBoth : SidecarFS :=
  ⟨some "\x7b\"text\": \"hello world\"\x7d", some "different text"⟩

/-- A disk on which only `/env/whisper-cli` exists. -/
def existsEnvOnly : String → Bool := fun s => s = "/env/whisper-cli"

/-- A network that answers every fetch with an empty body. -/
def dlFetchOk : String → FetchOutcome := fun _ => .ok []

/-- A network that rejects every fetch. -/
def dlFetchDown : String → FetchOutcome := fun _ => .netErr "fetch failed"

/-- A decoder that always fails (undecodable input). -/
def decodeNone : List Nat → Option AudioBuffer := fun _ => none

/-- An undecodable input blob. -/
def webmBlob : Blob := ⟨[26, 69, 223, 163], "audio/webm"⟩

end Privote

namespace Privote


set_option maxRecDepth 8192

theorem append_left_ne_empty (a b : String) (h : a ≠ "") : a ++ b ≠ "" := by
  obtain ⟨data⟩ := a
  cases data with
  | nil => exact absurd rfl h
  | cons c cs =>
      intro hc
      have := congrArg String.data hc
      simp [String.append] at this

theorem audioNotFoundMsg_ne (p : String) : audioNotFoundMsg p ≠ "" :=
  append_left_ne_empty _ _ (show ("Audio file not found: " : String) ≠ "" by decide)

theorem modelNotFoundMsg_ne (p : String) : modelNotFoundMsg p ≠ "" :=
  append_left_ne_empty _ _ (append_left_ne_empty _ _ (append_left_ne_empty _ _
    (show ("Whisper model not found at " : String) ≠ "" by decide)))

theorem exitCodeMsg_ne (code : Int) (e o : String) : exitCodeMsg code e o ≠ "" :=
  append_left_ne_empty _ _ (append_left_ne_empty _ _ (append_left_ne_empty _ _
    (append_left_ne_empty _ _ (append_left_ne_empty _ _
      (show ("Whisper process exited with code " : String) ≠ "" by decide)))))

theorem spawnFailMsg_ne (p m : String) : spawnFailMsg p m ≠ "" :=
  append_left_ne_empty _ _ (append_left_ne_empty _ _ (append_left_ne_empty _ _
    (append_left_ne_empty _ _
      (show ("Failed to start Whisper process at " : String) ≠ "" by decide))))

theorem emptyTranscriptMsg_ne (n : Nat) : emptyTranscriptMsg n ≠ "" :=
  append_left_ne_empty _ _ (append_left_ne_empty _ _ (append_left_ne_empty _ _
    (show ("No transcript generated. Audio file may be invalid or incompatible.\n" :
      String) ≠ "" by decide)))

theorem parseFailMsg_ne (m : String) : parseFailMsg m ≠ "" :=
  append_left_ne_empty _ _ (show ("Failed to parse whisper output: " : String) ≠ "" by decide)

theorem transcribe_cli_eval (env : WhisperEnv)
    (ha : env.audioExists = true) (hm : env.modelExists = true)
    (hw : env.whisperExists = true) (hs : env.spawnFail = none)
    (hc : env.exitCode = 0) (n : Nat) (hst : env.statResult = .ok n) :
    transcribe env =
      if resolveTranscript env.parse env.stdout env.sidecars = "" then
        .failed (emptyTranscriptMsg n)
      else
        .ok (resolveTranscript env.parse env.stdout env.sidecars) env.language
          (env.tClose - env.tStart) (resolveSegments env.parse env.sidecars) := by
  unfold transcribe transcribeWithCLI closeHandler
  rw [ha, hm, hw, hs, hc, hst]
  by_cases hres : resolveTranscript env.parse env.stdout env.sidecars = "" <;>
    simp [hres]

theorem closeHandler_error_ne (parse : String → Option JsonData)
    (language : String) (tStart tClose : Nat) (code : Int)
    (stdoutS stderrS : String) (fs : SidecarFS)
    (statResult : Except String Nat) (m : String)
    (hm : closeHandler parse language tStart tClose code stdoutS stderrS fs
        statResult = .error m) : m ≠ "" := by
  unfold closeHandler at hm
  split at hm
  · cases hm
    exact exitCodeMsg_ne _ _ _
  · split at hm
    · cases hm
      exact parseFailMsg_ne _
    · by_cases ht : resolveTranscript parse stdoutS fs = ""
      · simp only [ht, if_true, Except.error.injEq] at hm
        subst hm
        exact emptyTranscriptMsg_ne _
      · simp [ht] at hm

theorem cli_error_ne (env : WhisperEnv) (m : String)
    (hm : transcribeWithCLI env = .error m) : m ≠ "" := by
  unfold transcribeWithCLI at hm
  split at hm
  · cases hm
    exact spawnFailMsg_ne _ _
  · exact closeHandler_error_ne _ _ _ _ _ _ _ _ _ _ hm

theorem cli_ok_success (env : WhisperEnv) (r : TranscriptionResult)
    (hr : transcribeWithCLI env = .ok r) : r.success = true := by
  unfold transcribeWithCLI closeHandler at hr
  split at hr
  · cases hr
  · split at hr
    · cases hr
    · split at hr
      · cases hr
      · by_cases ht : resolveTranscript env.parse env.stdout env.sidecars = ""
        · simp [ht] at hr
        · simp only [ht, if_false, Except.ok.injEq] at hr
          subst hr
          rfl

theorem transcribe_failed_ne (env : WhisperEnv) (m : String)
    (hm : transcribe env = .failed m) : m ≠ "" := by
  unfold transcribe at hm
  split at hm
  · cases hm
    exact audioNotFoundMsg_ne _
  · split at hm
    · cases hm
      exact modelNotFoundMsg_ne _
    · split at hm
      · cases hm
      · split at hm
        · next r hr =>
          subst hm
          have := cli_ok_success env (.failed m) hr
          simp [TranscriptionResult.success] at this
        · next e he =>
          cases hm
          exact cli_error_ne env _ he

theorem jsOrS_ne_default (a d : String) (hd : d ≠ "") : jsOrS a d ≠ "" := by
  unfold jsOrS
  split
  · exact hd
  · next h => exact h



/-- C1 (corrected, amended form): for every transcription call on which the
engine child process exits with code 0 (audio, model and executable present,
no spawn failure, `statSync` succeeds), the result has `success = true` iff
the transcript string resolved through the fallback chain is non-empty —
where the text sidecar and stdout are trimmed before the emptiness test but
the JSON transcript field is used untrimmed — and when the resolved
transcript is empty the result is the `EmptyTranscript` failure. -/
theorem whisper_exit_zero_success_iff_resolved_nonempty (env : WhisperEnv)
    (ha : env.audioExists = true) (hm : env.modelExists = true)
    (hw : env.whisperExists = true) (hs : env.spawnFail = none)
    (hc : env.exitCode = 0) (n : Nat) (hst : env.statResult = .ok n) :
    ((transcribe env).success = true ↔
      resolveTranscript env.parse env.stdout env.sidecars ≠ "")
    ∧ (resolveTranscript env.parse env.stdout env.sidecars = "" →
        transcribe env = .failed (emptyTranscriptMsg n)) := by
  have key := transcribe_cli_eval env ha hm hw hs hc n hst
  by_cases hres : resolveTranscript env.parse env.stdout env.sidecars = "" <;>
    simp [key, hres, TranscriptionResult.success]

/-- C1 counterexample: a zero-exit run on which all three sources are
blank — the JSON `transcription` field is `" "`, the text sidecar is
`"   "`, stdout is `"  "` — yet `transcribe` returns success with
transcript `" "`, because the JSON field is tested untrimmed; the claim
demands a failure here. -/
theorem whisper_blank_sources_yield_success :
    (transcribe envAllBlank).success = true
    ∧ transcribe envAllBlank = .ok " " "en" 2000 []
    ∧ (" ").data.all Char.isWhitespace = true
    ∧ ("   ").data.all Char.isWhitespace = true
    ∧ ("  ").data.all Char.isWhitespace = true :=
  ⟨rfl, rfl, by decide, by decide, by decide⟩

/-- C1 witness: the amended theorem applied to the concrete zero-exit run
`envHello`, whose JSON sidecar yields `"hello team"`. -/
theorem whisper_exit_zero_success_iff_witness :
    (transcribe envHello).success = true
    ∧ resolveTranscript envHello.parse envHello.stdout envHello.sidecars ≠ "" :=
  ⟨rfl,
   (whisper_exit_zero_success_iff_resolved_nonempty envHello rfl rfl rfl rfl rfl
      160044 rfl).1.mp rfl⟩

/-- C2: with audio and model present but the engine executable absent,
`transcribe` returns success carrying the fixed placeholder transcript
(whose text opens with "This is a placeholder"), and never throws; with
audio present but the model absent it returns the model-not-found failure,
never a placeholder. -/
theorem whisper_missing_engine_soft_missing_model_hard (env : WhisperEnv)
    (ha : env.audioExists = true) :
    (env.modelExists = true → env.whisperExists = false →
      transcribe env = .ok placeholderTranscript env.language 0 [])
    ∧ (env.modelExists = false →
      transcribe env = .failed (modelNotFoundMsg env.modelPath)
      ∧ (transcribe env).success = false)
    ∧ placeholderTranscript.data.take 21 = ("This is a placeholder").data := by
  refine ⟨?_, ?_, ?_⟩
  · intro hm hw
    unfold transcribe
    rw [ha, hm, hw]
    simp
  · intro hm
    have : transcribe env = .failed (modelNotFoundMsg env.modelPath) := by
      unfold transcribe
      rw [ha, hm]
      simp
    exact ⟨this, by simp [this, TranscriptionResult.success]⟩
  · decide

/-- C2 witness: the theorem applied to an engine-less environment and to a
model-less environment. -/
theorem whisper_missing_engine_soft_witness :
    transcribe envNoEngine = .ok placeholderTranscript "en" 0 []
    ∧ transcribe envNoModel = .failed (modelNotFoundMsg "/res/models/ggml-base.en.bin") :=
  ⟨(whisper_missing_engine_soft_missing_model_hard envNoEngine rfl).1 rfl rfl,
   ((whisper_missing_engine_soft_missing_model_hard envNoModel rfl).2.1 rfl).1⟩

/-- C3: the Output Parser resolves the transcript in strict priority
order — the JSON sidecar's transcript (with its segments) whenever it is
non-empty, regardless of the other sources; the trimmed text sidecar only
when the JSON step yielded nothing; captured stdout only when both sidecar
steps yielded nothing. -/
theorem output_parser_priority (parse : String → Option JsonData)
    (stdoutS : String) (fs : SidecarFS) :
    ((jsonYield parse fs.jsonSidecar).1 ≠ "" →
       resolveTranscript parse stdoutS fs = (jsonYield parse fs.jsonSidecar).1
       ∧ resolveSegments parse fs = (jsonYield parse fs.jsonSidecar).2)
    ∧ ((jsonYield parse fs.jsonSidecar).1 = "" → ∀ c, fs.txtSidecar = some c →
       c.trim ≠ "" → resolveTranscript parse stdoutS fs = c.trim)
    ∧ ((jsonYield parse fs.jsonSidecar).1 = "" → txtYield fs = "" → stdoutS ≠ "" →
       resolveTranscript parse stdoutS fs = stdoutS.trim) := by
  refine ⟨?_, ?_, ?_⟩
  · intro hj
    refine ⟨?_, rfl⟩
    unfold resolveTranscript
    simp [hj]
  · intro hj c htxt hct
    unfold resolveTranscript
    simp [hj, htxt, hct]
  · intro hj htx hsd
    unfold resolveTranscript
    cases hc : fs.txtSidecar with
    | none => simp [hj, hc, hsd]
    | some c =>
        have hct : c.trim = "" := by simpa [txtYield, hc] using htx
        simp [hj, hc, hct, hsd]

/-- C3 witness: with a parseable JSON sidecar yielding `"hello world"`
coexisting with a text sidecar holding the different content
`"different text"`, the parser returns the JSON content. -/
theorem output_parser_priority_witness :
    resolveTranscript parseHelloWorld "stdout noise" fsBoth
      = (jsonYield parseHelloWorld fsBoth.jsonSidecar).1
    ∧ (jsonYield parseHelloWorld fsBoth.jsonSidecar).1 = "hello world"
    ∧ fsBoth.txtSidecar = some "different text"
    ∧ ("different text" : String) ≠ "hello world" :=
  ⟨((output_parser_priority parseHelloWorld "stdout noise" fsBoth).1 (by decide)).1,
   rfl, rfl, by decide⟩



/-- C4 (corrected, amended form): the constructor resolves the engine path
as the first non-empty candidate of: the explicit caller-supplied path, the
`WHISPER_CPP_PATH` environment override, and `resourcesPath/whisper-cli` —
with no disk-existence test at any step and no fourth well-known
system-location candidate. -/
theorem whisper_path_resolution_priority (o e : Option String) (r : String) :
    (∀ s, o = some s → s ≠ "" → resolveWhisperPath o e r = s)
    ∧ ((o = none ∨ o = some "") → ∀ s, e = some s → s ≠ "" →
        resolveWhisperPath o e r = s)
    ∧ ((o = none ∨ o = some "") → (e = none ∨ e = some "") →
        resolveWhisperPath o e r = pathJoin r "whisper-cli") := by
  refine ⟨?_, ?_, ?_⟩
  · intro s hso hs
    subst hso
    simp [resolveWhisperPath, jsOr, hs]
  · rintro (ho | ho) s hes hs <;> subst ho <;> subst hes <;>
      simp [resolveWhisperPath, jsOr, hs]
  · rintro (ho | ho) (he | he) <;> subst ho <;> subst he <;>
      simp [resolveWhisperPath, jsOr]

/-- C4 counterexample: with an explicit caller-supplied path that does not
exist on disk and an environment override that does, the code resolves the
non-existing explicit path, while the spec's disk-checking locator
(`locatorSpec`) would resolve the environment override; so resolution does
not proceed "until one path exists on disk". -/
theorem whisper_path_no_disk_check :
    resolveWhisperPath (some "/custom/whisper") (some "/env/whisper-cli") "/res"
      = "/custom/whisper"
    ∧ existsEnvOnly "/custom/whisper" = false
    ∧ existsEnvOnly "/env/whisper-cli" = true
    ∧ locatorSpec existsEnvOnly (some "/custom/whisper") (some "/env/whisper-cli")
        "/res" "/usr/local/bin/whisper-cli" = some "/env/whisper-cli" := by
  refine ⟨rfl, by decide, by decide, by decide⟩

/-- C4 witness: the amended theorem applied at each of the three
priority levels. -/
theorem whisper_path_resolution_priority_witness :
    resolveWhisperPath (some "/opt/whisper") (some "/env/whisper-cli") "/res"
      = "/opt/whisper"
    ∧ resolveWhisperPath none (some "/env/whisper-cli") "/res" = "/env/whisper-cli"
    ∧ resolveWhisperPath none none "/res" = pathJoin "/res" "whisper-cli" :=
  ⟨(whisper_path_resolution_priority (some "/opt/whisper") (some "/env/whisper-cli")
      "/res").1 "/opt/whisper" rfl (by decide),
   (whisper_path_resolution_priority none (some "/env/whisper-cli") "/res").2.1
      (Or.inl rfl) "/env/whisper-cli" rfl (by decide),
   (whisper_path_resolution_priority none none "/res").2.2 (Or.inl rfl) (Or.inl rfl)⟩

/-- C5: for every input, `transcribe` returns a result object — a success,
or a failure carrying a non-empty (human-readable) error message — and the
`transcribe-audio` IPC handler likewise never surfaces a failure with an
empty message; no path raises through to the caller (every internal throw
is modelled and caught by the wrappers). -/
theorem transcribe_total_result_nonempty_error (env : WhisperEnv) :
    ((transcribe env).success = true
      ∨ ∃ m, transcribe env = .failed m ∧ m ≠ "")
    ∧ (∀ m, transcribeAudioHandler env = .failed m → m ≠ "") := by
  constructor
  · cases h : transcribe env with
    | ok t l d s => exact Or.inl (by simp [TranscriptionResult.success])
    | failed m => exact Or.inr ⟨m, rfl, transcribe_failed_ne env m h⟩
  · intro m hm
    unfold transcribeAudioHandler at hm
    split at hm
    · cases hm
    · cases hm
      exact jsOrS_ne_default _ _ (by decide)

/-- C5 witness: the theorem applied to an environment whose audio file is
missing; the handler's failure message is the non-empty audio-not-found
message. -/
theorem transcribe_total_result_witness :
    audioNotFoundMsg "/rec/missing.wav" ≠ "" :=
  (transcribe_total_result_nonempty_error envNoAudio).2
    (audioNotFoundMsg "/rec/missing.wav") rfl

/-- C6: for a catalog model, if a first `download` call succeeds then a
second call in sequence also succeeds, short-circuits on the existing file
(no network fetch, no file write), and the models directory holds exactly
one copy of the model file. -/
theorem download_model_idempotent (fetch : String → FetchOutcome)
    (modelName : String) (files : List String)
    (hcat : (modelUrls.lookup modelName).isSome = true)
    (hwf : files.count modelName ≤ 1)
    (hfst : (downloadModel fetch modelName files).result.success = true) :
    downloadModel fetch modelName (downloadModel fetch modelName files).files
      = ⟨.ok "Model already exists",
         (downloadModel fetch modelName files).files, 0, 0⟩
    ∧ (downloadModel fetch modelName files).files.count modelName = 1 := by
  by_cases hmem : modelName ∈ files
  · have h1 : downloadModel fetch modelName files
        = ⟨.ok "Model already exists", files, 0, 0⟩ := by
      unfold downloadModel
      simp [hmem]
    refine ⟨?_, ?_⟩
    · rw [h1]
      unfold downloadModel
      simp [hmem]
    · rw [h1]
      have hpos : 0 < List.count modelName files := List.count_pos_iff.mpr hmem
      show List.count modelName files = 1
      omega
  · obtain ⟨url, hurl⟩ := Option.isSome_iff_exists.mp hcat
    cases hf : fetch url with
    | ok body =>
        have h1 : downloadModel fetch modelName files
            = ⟨.ok ("Model " ++ modelName ++ " downloaded successfully"),
               modelName :: files, 1, 1⟩ := by
          unfold downloadModel
          simp [hmem, hurl, hf]
        refine ⟨?_, ?_⟩
        · rw [h1]
          unfold downloadModel
          simp
        · rw [h1]
          show List.count modelName (modelName :: files) = 1
          simp [List.count_eq_zero.mpr hmem]
    | httpErr status statusText =>
        exfalso
        have h1 : downloadModel fetch modelName files
            = ⟨.failed ("HTTP " ++ toString status ++ ": " ++ statusText),
               files, 1, 0⟩ := by
          unfold downloadModel
          simp [hmem, hurl, hf]
        rw [h1] at hfst
        simp [DlResult.success] at hfst
    | netErr m =>
        exfalso
        have h1 : downloadModel fetch modelName files
            = ⟨.failed m, files, 1, 0⟩ := by
          unfold downloadModel
          simp [hmem, hurl, hf]
        rw [h1] at hfst
        simp [DlResult.success] at hfst

/-- C6 witness: the theorem applied to `ggml-base.en.bin` on an empty
models directory with a succeeding network. -/
theorem download_model_idempotent_witness :
    downloadModel dlFetchOk "ggml-base.en.bin"
        (downloadModel dlFetchOk "ggml-base.en.bin" []).files
      = ⟨.ok "Model already exists",
         (downloadModel dlFetchOk "ggml-base.en.bin" []).files, 0, 0⟩
    ∧ (downloadModel dlFetchOk "ggml-base.en.bin" []).files.count "ggml-base.en.bin" = 1 :=
  download_model_idempotent dlFetchOk "ggml-base.en.bin" [] (by decide) (by decide) rfl

/-- C7 (corrected, amended form): a model id that is not in the catalog
fails with the `Unknown model` error, provided no file of that name already
exists in the models directory (the existence check precedes the catalog
lookup). -/
theorem download_unknown_model_fails_when_absent (fetch : String → FetchOutcome)
    (modelName : String) (files : List String)
    (hcat : modelUrls.lookup modelName = none)
    (hmem : files.contains modelName = false) :
    downloadModel fetch modelName files
      = ⟨.failed ("Unknown model: " ++ modelName), files, 0, 0⟩ := by
  have hnot : modelName ∉ files := by simpa using hmem
  unfold downloadModel
  simp [hnot, hcat]

/-- C7 counterexample: for the non-catalog id `custom-model.bin` whose
file already exists in the models directory, `download` returns success
("Model already exists") instead of the `UnknownModel` failure the claim
demands for every non-catalog id. -/
theorem download_unknown_model_preexisting_success :
    (downloadModel dlFetchDown "custom-model.bin" ["custom-model.bin"]).result
      = .ok "Model already exists"
    ∧ (downloadModel dlFetchDown "custom-model.bin" ["custom-model.bin"]).result.success
      = true
    ∧ modelUrls.lookup "custom-model.bin" = none := by
  refine ⟨rfl, rfl, by decide⟩

/-- C7 witness: the amended theorem applied to a non-catalog id with an
empty models directory. -/
theorem download_unknown_model_fails_witness :
    downloadModel dlFetchOk "no-such-model.bin" []
      = ⟨.failed ("Unknown model: " ++ "no-such-model.bin"), [], 0, 0⟩ :=
  download_unknown_model_fails_when_absent dlFetchOk "no-such-model.bin" []
    (by decide) (by decide)

/-- C8: whenever decoding of the input audio fails, `convertToWav`
returns the original input blob unmodified; the failure is swallowed by the
catch, never propagated. -/
theorem convert_to_wav_failure_returns_original
    (decode : List Nat → Option AudioBuffer) (audioBlob : Blob)
    (h : decode audioBlob.data = none) :
    convertToWav decode audioBlob = audioBlob := by
  unfold convertToWav
  rw [h]

/-- C8 witness: the theorem applied to an always-failing decoder and a
concrete webm blob. -/
theorem convert_to_wav_failure_witness :
    convertToWav decodeNone webmBlob = webmBlob :=
  convert_to_wav_failure_returns_original decodeNone webmBlob rfl

/-- C9 (corrected, amended form): for every successful CLI transcription,
the reported duration is the wall-clock time from just before the process
is spawned to the `close` event (process exit) — it is computed at the
entry of the close handler, before output parsing runs. -/
theorem duration_measured_spawn_to_close (env : WhisperEnv)
    (ha : env.audioExists = true) (hm : env.modelExists = true)
    (hw : env.whisperExists = true) (hs : env.spawnFail = none)
    (hc : env.exitCode = 0) (n : Nat) (hst : env.statResult = .ok n)
    (hne : resolveTranscript env.parse env.stdout env.sidecars ≠ "") :
    (transcribe env).durationMsField = some (env.tClose - env.tStart) := by
  have key := transcribe_cli_eval env ha hm hw hs hc n hst
  simp [key, hne, TranscriptionResult.durationMsField]

/-- C9 counterexample: on the concrete run `envHello` (spawn at 1000 ms,
close at 3000 ms, parsing complete at 3500 ms) the reported duration is
2000 ms, not the spawn-to-parse-completion span of 2500 ms the claim
specifies. -/
theorem duration_not_parse_completion :
    (transcribe envHello).durationMsField
      = some (envHello.tClose - envHello.tStart)
    ∧ envHello.tClose - envHello.tStart = 2000
    ∧ envHello.tParseDone - envHello.tStart = 2500
    ∧ (transcribe envHello).durationMsField
      ≠ some (envHello.tParseDone - envHello.tStart) := by
  refine ⟨rfl, rfl, rfl, by decide⟩

/-- C9 witness: the amended theorem applied to the concrete run
`envHello`. -/
theorem duration_measured_spawn_to_close_witness :
    (transcribe envHello).durationMsField = some 2000 :=
  duration_measured_spawn_to_close envHello rfl rfl rfl rfl rfl 160044 rfl
    (by decide)

/-- C10: whenever `transcribe` takes the placeholder path (audio and model
exist, engine executable absent), the success result carries exactly the
fixed placeholder transcript, the configured language code, duration 0 and
an empty segments array. -/
theorem placeholder_result_shape (env : WhisperEnv)
    (ha : env.audioExists = true) (hm : env.modelExists = true)
    (hw : env.whisperExists = false) :
    transcribe env = .ok placeholderTranscript env.language 0 [] := by
  unfold transcribe
  rw [ha, hm, hw]
  simp

/-- C10 witness: the theorem applied to an engine-less environment
configured with language `de`. -/
theorem placeholder_result_shape_witness :
    transcribe envNoEngineDe = .ok placeholderTranscript "de" 0 [] :=
  placeholder_result_shape envNoEngineDe rfl rfl rfl

end Privote
